import Mathlib

/-!
Shallow embedding of the order-processing GraphQL server (src/index.ts,
Apollo + Mongoose + MongoDB).

The three Mongo collections (users, products, orders) become three lists in
a `DB` state; each resolver becomes a function from the state to a result
paired with the next state, and a JavaScript `throw` becomes `Except Err`.
Prices are `Option ℚ`: a Mongoose `Number` field may be absent from a
document, and rationals model the exact decimal arithmetic the claims speak
about (all values involved are exactly representable JS doubles, so no
rounding is elided).
-/

namespace Day05

/-- `UserSchema`: name, email, password, plus the Mongo `_id`. -/
structure User where
  id : String
  name : String
  email : String
  password : String
  deriving Repr, DecidableEq

/-- `ProductSchema`: the `price: Number` field is optional on a document,
hence `Option ℚ`. -/
structure Product where
  id : String
  name : String
  descr : String
  price : Option ℚ
  image : String
  deriving Repr, DecidableEq

/-- `OrderSchema`: `user` and `products` are stored as references (ids). -/
structure Order where
  id : String
  user : String
  products : List String
  status : String
  totalPrice : ℚ
  createdAt : String
  deriving Repr, DecidableEq

/-- The MongoDB state: the three collections. -/
structure DB where
  users : List User
  products : List Product
  orders : List Order
  deriving Repr, DecidableEq

/-- The errors thrown by the resolvers, one constructor per `throw new
Error(...)` site. -/
inductive Err where
  | notFoundUser
  | notFoundProducts
  | invalidPrice
  | notFoundOrder (id : String)
  | conflictUserExists
  | unauthorized
  deriving Repr, DecidableEq

/-- `User.findById(id)`: Mongo `_id` lookup (ids are unique in a
collection, so the first match is the match). -/
def findUserById (db : DB) (id : String) : Option User :=
  db.users.find? (fun u => u.id == id)

/-- `Product.findById(id)`. -/
def findProductById (db : DB) (id : String) : Option Product :=
  db.products.find? (fun p => p.id == id)

/-- `Order.findById(id)`. -/
def findOrderById (db : DB) (id : String) : Option Order :=
  db.orders.find? (fun o => o.id == id)

/-- `Product.find({ _id: { $in: ids } })`: MongoDB returns every stored
document whose `_id` is a member of `ids`, each document at most once and
in collection order.  Duplicate entries of `ids` do NOT duplicate results:
`$in` is a membership condition on documents. -/
def findProductsIn (db : DB) (ids : List String) : List Product :=
  db.products.filter (fun p => decide (p.id ∈ ids))

/-- The JavaScript truthiness test `!product.price` (line 270): true when
the price is absent (undefined/null) and also when it is `0`. -/
def priceFalsy (p : Product) : Bool :=
  match p.price with
  | none => true
  | some q => decide (q = 0)

/-- The `products.reduce` of createOrder (lines 269-275): left fold from 0
that throws `Product price is undefined or null` at the first falsy price. -/
def computeTotal : List Product → ℚ → Except Err ℚ
  | [], acc => .ok acc
  | p :: ps, acc =>
    match p.price with
    | none => .error .invalidPrice
    | some q => if q = 0 then .error .invalidPrice else computeTotal ps (acc + q)

/-- The response shape after `.populate("user products")`: references
replaced by resolved records. -/
structure PopulatedOrder where
  id : String
  user : Option User
  products : List Product
  status : String
  totalPrice : ℚ
  createdAt : String
  deriving Repr, DecidableEq

/-- `.populate("user products")`: a dangling single reference populates as
null; dangling entries of an array reference are dropped. -/
def populate (db : DB) (o : Order) : PopulatedOrder :=
  { id := o.id
    user := findUserById db o.user
    products := o.products.filterMap (findProductById db)
    status := o.status
    totalPrice := o.totalPrice
    createdAt := o.createdAt }

/-- `createOrder` resolver (lines 259-288).  The GraphQL `CreateOrderInput`
carries only `userId` and `productIds`, so the destructured `status` is
undefined and the schema default `"placed"` applies on save.  `newId` and
`now` stand for the generated `_id` and `new Date().toISOString()`. -/
def createOrder (db : DB) (newId now userId : String) (productIds : List String) :
    Except Err PopulatedOrder × DB :=
  match findUserById db userId with
  | none => (.error .notFoundUser, db)
  | some _ =>
    let products := findProductsIn db productIds
    if products.length ≠ productIds.length then (.error .notFoundProducts, db)
    else
      match computeTotal products 0 with
      | .error e => (.error e, db)
      | .ok totalPrice =>
        let order : Order :=
          { id := newId, user := userId, products := productIds,
            status := "placed", totalPrice := totalPrice, createdAt := now }
        let db2 : DB := { db with orders := db.orders ++ [order] }
        (.ok (populate db2 order), db2)

/-- `updateOrderStatus` resolver (lines 289-306):
`Order.findByIdAndUpdate(id, { status }, { new: true }).populate(...)`.
Mongoose does not run schema validators on update queries by default
(`runValidators` is off), so the `status` enum of `OrderSchema` is NOT
enforced here: any string is written.  On a missing id it throws; the
update matched nothing, so the state is unchanged. -/
def updateOrderStatus (db : DB) (id status : String) :
    Except Err (PopulatedOrder × String) × DB :=
  match findOrderById db id with
  | none => (.error (.notFoundOrder id), db)
  | some o =>
    let db2 : DB :=
      { db with orders :=
          db.orders.map (fun x => if x.id = id then { x with status := status } else x) }
    (.ok (populate db2 { o with status := status }, "updated sucessfully"), db2)

/-- `deleteOrder` resolver (lines 307-317): `findByIdAndDelete` removes the
document with that `_id` when present, and the resolver reports the outcome
as a message, never as an error. -/
def deleteOrder (db : DB) (id : String) : String × DB :=
  match findOrderById db id with
  | none => ("Order already deleted", db)
  | some _ =>
    ("Order Deleted", { db with orders := db.orders.filter (fun o => decide (o.id ≠ id)) })

/-- `UpdateProductInput`: only `id` is required. -/
structure UpdateProductInput where
  id : String
  name : Option String
  descr : Option String
  price : Option ℚ
  image : Option String
  deriving Repr, DecidableEq

/-- `updateProduct` resolver (lines 235-246):
`Product.findByIdAndUpdate(id, { name, description, price, image },
{ new: true })`; Mongoose strips the `undefined` entries, so only supplied
fields are written.  Returns the updated document, or null when the id
matched nothing. -/
def updateProduct (db : DB) (inp : UpdateProductInput) : Option Product × DB :=
  match findProductById db inp.id with
  | none => (none, db)
  | some _ =>
    let db2 : DB :=
      { db with products :=
          db.products.map (fun p =>
            if p.id = inp.id then
              { p with
                name := inp.name.getD p.name
                descr := inp.descr.getD p.descr
                price := match inp.price with | some q => some q | none => p.price
                image := inp.image.getD p.image }
            else p) }
    (findProductById db2 inp.id, db2)

/-- `orders` query (lines 213-216): `Order.find().populate("user products")`,
a pure read. -/
def ordersQuery (db : DB) : List PopulatedOrder × DB :=
  (db.orders.map (populate db), db)

/-- `order(id)` query (lines 217-220): absence yields null, not an error. -/
def orderQuery (db : DB) (id : String) : Option PopulatedOrder × DB :=
  ((findOrderById db id).map (populate db), db)

/-- `userOrders(userId)` query (lines 221-226): equality filter on the
stored user reference, then populate. -/
def userOrders (db : DB) (userId : String) : List PopulatedOrder × DB :=
  ((db.orders.filter (fun o => o.user == userId)).map (populate db), db)

/-- The hard-coded signing secret (line 6). -/
def JWT_SECRET : String := "secret"

/-- A bearer credential as it reaches `JWT.verify`: absent (the resolver
substitutes `""` for a missing header), a malformed string, or a
well-formed JWT signed with some secret and carrying a `userId` payload. -/
inductive Credential where
  | missing
  | malformed (raw : String)
  | signed (secret userId : String)
  deriving Repr, DecidableEq

/-- `JWT.sign({ userId }, secret)`. -/
def sign (userId secret : String) : Credential := .signed secret userId

/-- `JWT.verify(token, JWT_SECRET)`: succeeds exactly on a well-formed
token signed with the expected secret, returning its payload; everything
else throws, modelled as `none`. -/
def verify (c : Credential) (secret : String) : Option String :=
  match c with
  | .missing => none
  | .malformed _ => none
  | .signed sec uid => if sec = secret then some uid else none

/-- `signUp` resolver (lines 318-338): rejects a duplicate email with
`User already exists`, otherwise persists the user (password verbatim) and
returns a token signed over the new id. -/
def signUp (db : DB) (newId name email password : String) :
    Except Err (Credential × String × String) × DB :=
  match db.users.find? (fun u => u.email == email) with
  | some _ => (.error .conflictUserExists, db)
  | none =>
    let user : User := { id := newId, name := name, email := email, password := password }
    (.ok (sign newId JWT_SECRET, newId, "User Created"),
     { db with users := db.users ++ [user] })

/-- `signIn` resolver (lines 339-353): looks the user up by email and
compares the stored password literally; failure of either check throws
`Invalid email or password`. -/
def signIn (db : DB) (email password : String) : Except Err (Credential × String) × DB :=
  match db.users.find? (fun u => u.email == email) with
  | none => (.error .unauthorized, db)
  | some u =>
    if u.password ≠ password then (.error .unauthorized, db)
    else (.ok (sign u.id JWT_SECRET, u.id), db)

/-- `signOut` resolver (lines 354-357): a no-op returning true. -/
def signOut : Bool := true

/-- The Apollo `context` callback (lines 366-384): verify the bearer token,
look up the bound user, and return `{ user }`; the `try/catch` turns every
failure (missing token, bad signature) into the anonymous `{ user: null }`
context, and an unknown user id yields `{ user: null }` through `findById`
returning null.  The function is total: it never throws to the caller. -/
def context (db : DB) (c : Credential) : Option User :=
  match verify c JWT_SECRET with
  | none => none
  | some uid => findUserById db uid

/-- Statement-side abbreviation: the prices, at call time, of the products
referenced by a list of ids, one entry per reference that resolves to a
product carrying a price. -/
def refPrices (db : DB) (productIds : List String) : List ℚ :=
  productIds.filterMap (fun pid => (findProductById db pid).bind Product.price)

/-- Statement-side decidable predicate: `pid` resolves to a product whose
price is defined and non-zero (i.e. not falsy). -/
def resolvesWithGoodPrice (db : DB) (pid : String) : Bool :=
  match findProductById db pid with
  | none => false
  | some p => !(priceFalsy p)

/-- Statement-side relation for the updateOrderStatus frame property: `new`
is `old` with, at each position, every field except `status` unchanged, and
orders not bearing the updated id wholly unchanged. -/
def onlyStatusChanged (old new : List Order) (id status : String) : Prop :=
  List.Forall₂ (fun x y =>
    y.id = x.id ∧ y.user = x.user ∧ y.products = x.products ∧
    y.totalPrice = x.totalPrice ∧ y.createdAt = x.createdAt ∧
    (x.id ≠ id → y = x) ∧ (x.id = id → y.status = status)) old new

end Day05

namespace Day05

/-- A small concrete database used to instantiate the theorems: one user,
products priced 10, 15.5 (written in normal form `31/2`), an absent price,
and a zero price. -/
def exDB : DB :=
  { users := [{ id := "U1", name := "u", email := "u@x.com", password := "pw" }]
    products :=
      [ { id := "P1", name := "a", descr := "d", price := some 10, image := "i" },
        { id := "P2", name := "b", descr := "d", price := some ⟨31, 2, by decide, by decide⟩,
          image := "i" },
        { id := "P3", name := "c", descr := "d", price := none, image := "i" },
        { id := "P4", name := "e", descr := "d", price := some 0, image := "i" } ]
    orders := [] }

/-- A concrete stored order on top of `exDB`. -/
def exOrder : Order :=
  { id := "O1", user := "U1", products := ["P1"], status := "placed",
    totalPrice := 10, createdAt := "t0" }

/-- `exDB` with one persisted order. -/
def exDB2 : DB := { exDB with orders := [exOrder] }

/-- `priceFalsy` on a product carrying a price. -/
theorem priceFalsy_some (p : Product) (q : ℚ) (h : p.price = some q) :
    priceFalsy p = decide (q = 0) := by
  unfold priceFalsy
  rw [h]

/-- `priceFalsy` on a product with an absent price. -/
theorem priceFalsy_none (p : Product) (h : p.price = none) :
    priceFalsy p = true := by
  unfold priceFalsy
  rw [h]

/-- The reduce of createOrder errors as soon as some product in the list has
a falsy price. -/
theorem computeTotal_error :
    ∀ (ps : List Product) (acc : ℚ), (∃ p ∈ ps, priceFalsy p = true) →
      computeTotal ps acc = .error .invalidPrice := by
  intro ps
  induction ps with
  | nil =>
    intro acc h
    simp at h
  | cons p ps ih =>
    intro acc h
    cases hp : p.price with
    | none =>
      simp [computeTotal, hp]
    | some v =>
      by_cases hv : v = 0
      · simp [computeTotal, hp, hv]
      · have htail : ∃ q ∈ ps, priceFalsy q = true := by
          rcases h with ⟨q, hq, hfal⟩
          rcases List.mem_cons.mp hq with rfl | hq'
          · rw [priceFalsy_some q v hp] at hfal
            simp [hv] at hfal
          · exact ⟨q, hq', hfal⟩
        simp [computeTotal, hp, hv]
        exact ih (acc + v) htail

/-- C2: createOrder fails with the user-not-found error when userId does
not resolve, and with the products-not-found error when the count of
resolved products differs from the count of requested ids; in both cases
the returned state — in particular the order store — is unchanged. -/
theorem claim_C2_createOrder_notFound (db : DB) (newId now userId : String)
    (productIds : List String) :
    (findUserById db userId = none →
      createOrder db newId now userId productIds = (.error .notFoundUser, db)) ∧
    ((findUserById db userId).isSome = true →
      (findProductsIn db productIds).length ≠ productIds.length →
      createOrder db newId now userId productIds = (.error .notFoundProducts, db)) := by
  constructor
  · intro h
    simp [createOrder, h]
  · intro h1 h2
    obtain ⟨u, hu⟩ := Option.isSome_iff_exists.mp h1
    simp [createOrder, hu, h2]

/-- Witness for C2 at the example database: an unknown user id and an
unknown product id each fail without a write. -/
theorem claim_C2_witness :
    createOrder exDB "O1" "t0" "U9" ["P1"] = (.error .notFoundUser, exDB) ∧
    createOrder exDB "O1" "t0" "U1" ["P9"] = (.error .notFoundProducts, exDB) :=
  ⟨(claim_C2_createOrder_notFound exDB "O1" "t0" "U9" ["P1"]).1 (by rfl),
   (claim_C2_createOrder_notFound exDB "O1" "t0" "U1" ["P9"]).2 (by rfl) (by decide)⟩

/-- C3: when the user resolves and the resolved-product count matches but
some resolved product carries no price, createOrder fails with the
missing-price error and the state is unchanged. -/
theorem claim_C3_createOrder_missingPrice (db : DB) (newId now userId : String)
    (productIds : List String)
    (hu : (findUserById db userId).isSome = true)
    (hlen : (findProductsIn db productIds).length = productIds.length)
    (hbad : ∃ p ∈ findProductsIn db productIds, p.price = none) :
    createOrder db newId now userId productIds = (.error .invalidPrice, db) := by
  obtain ⟨u, hu'⟩ := Option.isSome_iff_exists.mp hu
  have herr : computeTotal (findProductsIn db productIds) 0 = .error .invalidPrice := by
    apply computeTotal_error
    rcases hbad with ⟨p, hp, hnone⟩
    exact ⟨p, hp, priceFalsy_none p hnone⟩
  simp [createOrder, hu', hlen, herr]

/-- Witness for C3: product P3 of the example database has no price. -/
theorem claim_C3_witness :
    createOrder exDB "O1" "t0" "U1" ["P3"] = (.error .invalidPrice, exDB) :=
  claim_C3_createOrder_missingPrice exDB "O1" "t0" "U1" ["P3"]
    (by rfl) (by rfl) (by decide)

/-- C10: the truthiness check `!product.price` also rejects a price that is
defined but equal to 0, with the same missing-price error and no write. -/
theorem claim_C10_zeroPrice (db : DB) (newId now userId : String)
    (productIds : List String)
    (hu : (findUserById db userId).isSome = true)
    (hlen : (findProductsIn db productIds).length = productIds.length)
    (hbad : ∃ p ∈ findProductsIn db productIds, p.price = some 0) :
    createOrder db newId now userId productIds = (.error .invalidPrice, db) := by
  obtain ⟨u, hu'⟩ := Option.isSome_iff_exists.mp hu
  have herr : computeTotal (findProductsIn db productIds) 0 = .error .invalidPrice := by
    apply computeTotal_error
    rcases hbad with ⟨p, hp, hzero⟩
    refine ⟨p, hp, ?_⟩
    rw [priceFalsy_some p 0 hzero]
    simp
  simp [createOrder, hu', hlen, herr]

/-- Witness for C10: product P4 of the example database is priced 0. -/
theorem claim_C10_witness :
    createOrder exDB "O1" "t0" "U1" ["P4"] = (.error .invalidPrice, exDB) :=
  claim_C10_zeroPrice exDB "O1" "t0" "U1" ["P4"]
    (by rfl) (by rfl) (by decide)

/-- C5: the read operations return the state unchanged, hydration copies
the stored totalPrice verbatim, and updateProduct leaves the order store
untouched, so a persisted order's totalPrice is exactly the value computed
at creation. -/
theorem claim_C5_totalPrice_frozen (db : DB) (oid uid : String)
    (inp : UpdateProductInput) (o : Order) :
    (ordersQuery db).2 = db ∧ (orderQuery db oid).2 = db ∧
    (userOrders db uid).2 = db ∧
    (populate db o).totalPrice = o.totalPrice ∧
    ((updateProduct db inp).2).orders = db.orders := by
  refine ⟨rfl, rfl, rfl, rfl, ?_⟩
  unfold updateProduct
  cases h : findProductById db inp.id <;> simp

/-- C6: deleteOrder never errors; an absent id reports "Order already
deleted" with the state unchanged, a present id reports "Order Deleted" and
removes the order, and a second delete of the same id reports "Order
already deleted". -/
theorem claim_C6_deleteOrder_idempotent (db : DB) (id : String) :
    (findOrderById db id = none → deleteOrder db id = ("Order already deleted", db)) ∧
    (∀ o, findOrderById db id = some o →
      (deleteOrder db id).1 = "Order Deleted" ∧
      findOrderById (deleteOrder db id).2 id = none ∧
      (deleteOrder (deleteOrder db id).2 id).1 = "Order already deleted") := by
  constructor
  · intro h
    simp [deleteOrder, h]
  · intro o h
    have h1 : deleteOrder db id =
        ("Order Deleted",
         { db with orders := db.orders.filter (fun o => decide (o.id ≠ id)) }) := by
      simp [deleteOrder, h]
    have h2 : findOrderById (deleteOrder db id).2 id = none := by
      rw [h1]
      unfold findOrderById
      apply List.find?_eq_none.mpr
      intro x hx
      have hne := (List.mem_filter.mp hx).2
      simp only [decide_eq_true_eq] at hne
      simpa using hne
    refine ⟨by rw [h1], h2, ?_⟩
    have habsent : ∀ db3 : DB, findOrderById db3 id = none →
        (deleteOrder db3 id).1 = "Order already deleted" := by
      intro db3 h3
      simp [deleteOrder, h3]
    exact habsent _ h2

/-- Witness for C6: deleting order O1 twice on the example database. -/
theorem claim_C6_witness :
    (deleteOrder exDB2 "O1").1 = "Order Deleted" ∧
    findOrderById (deleteOrder exDB2 "O1").2 "O1" = none ∧
    (deleteOrder (deleteOrder exDB2 "O1").2 "O1").1 = "Order already deleted" :=
  (claim_C6_deleteOrder_idempotent exDB2 "O1").2 exOrder (by rfl)

/-- C7: signUp rejects a duplicate email with the conflict error without
persisting a user; signIn rejects an unknown email or a literally
mismatched password with the unauthorized error, and on success returns a
token signed over the user's id. -/
theorem claim_C7_auth (db : DB) (newId name email pw : String) :
    ((db.users.find? (fun u => u.email == email)).isSome = true →
      signUp db newId name email pw = (.error .conflictUserExists, db)) ∧
    (db.users.find? (fun u => u.email == email) = none →
      signIn db email pw = (.error .unauthorized, db)) ∧
    (∀ u, db.users.find? (fun u => u.email == email) = some u →
      (u.password ≠ pw → signIn db email pw = (.error .unauthorized, db)) ∧
      (u.password = pw → signIn db email pw = (.ok (sign u.id JWT_SECRET, u.id), db))) := by
  refine ⟨?_, ?_, ?_⟩
  · intro h
    obtain ⟨u, hu⟩ := Option.isSome_iff_exists.mp h
    simp [signUp, hu]
  · intro h
    simp [signIn, h]
  · intro u hu
    constructor
    · intro hne
      simp [signIn, hu, hne]
    · intro heq
      simp [signIn, hu, heq]

/-- Witness for C7: duplicate-email sign-up, wrong-password sign-in, and a
successful sign-in on the example database. -/
theorem claim_C7_witness :
    signUp exDB "U2" "n" "u@x.com" "zz" = (.error .conflictUserExists, exDB) ∧
    signIn exDB "u@x.com" "bad" = (.error .unauthorized, exDB) ∧
    signIn exDB "u@x.com" "pw" = (.ok (sign "U1" JWT_SECRET, "U1"), exDB) :=
  ⟨(claim_C7_auth exDB "U2" "n" "u@x.com" "zz").1 (by rfl),
   ((claim_C7_auth exDB "U2" "n" "u@x.com" "bad").2.2
       { id := "U1", name := "u", email := "u@x.com", password := "pw" } (by rfl)).1
     (by decide),
   ((claim_C7_auth exDB "U2" "n" "u@x.com" "pw").2.2
       { id := "U1", name := "u", email := "u@x.com", password := "pw" } (by rfl)).2
     (by rfl)⟩

/-- C8: context resolution is total (it returns an `Option User`, never an
error): it is an authenticated context exactly when the token verifies
against the secret and the bound user id resolves, and the anonymous
(null-user) context in every other case — missing or malformed credential,
wrong signature, or unknown user id. -/
theorem claim_C8_context (db : DB) (c : Credential) :
    (∀ u, context db c = some u ↔
      ∃ uid, verify c JWT_SECRET = some uid ∧ findUserById db uid = some u) ∧
    (context db c = none ↔
      verify c JWT_SECRET = none ∨
        ∃ uid, verify c JWT_SECRET = some uid ∧ findUserById db uid = none) := by
  cases hv : verify c JWT_SECRET with
  | none => simp [context, hv]
  | some uid => simp [context, hv]

/-- C4: updateOrderStatus on an existing order leaves the user and product
stores unchanged and rewrites the order list so that, position by position,
every field except status is identical and orders with a different id are
wholly unchanged. -/
theorem claim_C4_updateOrderStatus_frame (db : DB) (id status : String) (o : Order)
    (h : findOrderById db id = some o) :
    (updateOrderStatus db id status).2.users = db.users ∧
    (updateOrderStatus db id status).2.products = db.products ∧
    onlyStatusChanged db.orders (updateOrderStatus db id status).2.orders id status := by
  have h2 : (updateOrderStatus db id status).2 =
      { db with orders :=
          db.orders.map (fun x => if x.id = id then { x with status := status } else x) } := by
    simp [updateOrderStatus, h]
  rw [h2]
  refine ⟨rfl, rfl, ?_⟩
  unfold onlyStatusChanged
  rw [List.forall₂_map_right_iff, List.forall₂_same]
  intro x hx
  by_cases hxi : x.id = id
  · simp [hxi]
  · simp [hxi]

/-- Witness for C4 on the example database. -/
theorem claim_C4_witness :
    (updateOrderStatus exDB2 "O1" "delivered").2.users = exDB2.users ∧
    (updateOrderStatus exDB2 "O1" "delivered").2.products = exDB2.products ∧
    onlyStatusChanged exDB2.orders (updateOrderStatus exDB2 "O1" "delivered").2.orders
      "O1" "delivered" :=
  claim_C4_updateOrderStatus_frame exDB2 "O1" "delivered" exOrder (by rfl)

/-- Updating the status field pointwise commutes with the `_id` lookup. -/
theorem findAfterStatusMap (l : List Order) (id status : String) :
    (l.map (fun x => if x.id = id then { x with status := status } else x)).find?
        (fun x => x.id == id) =
      (l.find? (fun x => x.id == id)).map
        (fun x => if x.id = id then { x with status := status } else x) := by
  induction l with
  | nil => rfl
  | cons x l ih =>
    by_cases hxi : x.id = id
    · have hfx : (((if x.id = id then { x with status := status } else x) : Order).id == id)
          = true := by
        simp [hxi]
      have hx : (x.id == id) = true := by simp [hxi]
      simp only [List.map_cons, List.find?_cons, hfx, hx]
      simp
    · have hfx : (((if x.id = id then { x with status := status } else x) : Order).id == id)
          = false := by
        simp [hxi]
      have hx : (x.id == id) = false := by simp [hxi]
      simp only [List.map_cons, List.find?_cons, hfx, hx]
      exact ih

/-- C9: updateOrderStatus accepts any status string for an existing order —
no transition graph is enforced — and both the returned and the stored
order carry exactly the requested status. -/
theorem claim_C9_status_unconstrained (db : DB) (id status : String) (o : Order)
    (h : findOrderById db id = some o) :
    ∃ po db2, updateOrderStatus db id status = (.ok (po, "updated sucessfully"), db2) ∧
      po.status = status ∧
      findOrderById db2 id = some { o with status := status } := by
  have h' : db.orders.find? (fun x => x.id == id) = some o := h
  have hid : o.id = id := by simpa using List.find?_some h'
  have hmain : updateOrderStatus db id status =
      (.ok (populate
          { db with orders :=
              db.orders.map (fun x => if x.id = id then { x with status := status } else x) }
          { o with status := status }, "updated sucessfully"),
       { db with orders :=
           db.orders.map (fun x => if x.id = id then { x with status := status } else x) }) := by
    simp [updateOrderStatus, h]
  refine ⟨_, _, hmain, rfl, ?_⟩
  show findOrderById _ id = some { o with status := status }
  unfold findOrderById
  rw [findAfterStatusMap]
  rw [h']
  simp [hid]

/-- Witness for C9: the claim's example — a "placed" order is updated
straight to "shipped" and both the response and the store carry "shipped". -/
theorem claim_C9_witness :
    ∃ po db2, updateOrderStatus exDB2 "O1" "shipped" = (.ok (po, "updated sucessfully"), db2) ∧
      po.status = "shipped" ∧
      findOrderById db2 "O1" = some { exOrder with status := "shipped" } :=
  claim_C9_status_unconstrained exDB2 "O1" "shipped" exOrder (by rfl)

/-- With unique product ids in the store, the `_id` lookup finds `p` for
`pid` exactly when `p` is stored and bears that id. -/
theorem findProductById_eq_some_iff (db : DB) (pid : String) (p : Product)
    (hids : (db.products.map Product.id).Nodup) :
    findProductById db pid = some p ↔ p ∈ db.products ∧ p.id = pid := by
  constructor
  · intro h
    have h' : db.products.find? (fun q => q.id == pid) = some p := h
    refine ⟨List.mem_of_find?_eq_some h', ?_⟩
    simpa using List.find?_some h'
  · rintro ⟨hp, rfl⟩
    cases hf : db.products.find? (fun q => q.id == p.id) with
    | none =>
      exfalso
      have := List.find?_eq_none.mp hf p hp
      simp at this
    | some q =>
      have hq : q ∈ db.products := List.mem_of_find?_eq_some hf
      have hqid : q.id = p.id := by simpa using List.find?_some hf
      have hqp : q = p := List.inj_on_of_nodup_map hids hq hp hqid
      exact (show findProductById db p.id = some q from hf).trans (by rw [hqp])

/-- A filterMap that succeeds everywhere preserves length. -/
theorem length_filterMap_of_isSome {α β : Type} (f : α → Option β) :
    ∀ l : List α, (∀ a ∈ l, (f a).isSome = true) →
      (l.filterMap f).length = l.length := by
  intro l
  induction l with
  | nil => intro _; rfl
  | cons a l ih =>
    intro h
    obtain ⟨b, hb⟩ := Option.isSome_iff_exists.mp (h a (List.mem_cons_self a l))
    simp only [List.filterMap_cons, hb, List.length_cons]
    rw [ih (fun x hx => h x (List.mem_cons_of_mem a hx))]

/-- With unique store ids, distinct requested ids each resolving, the `$in`
result is a permutation of looking the requested ids up one by one. -/
theorem findProductsIn_perm (db : DB) (pids : List String)
    (hids : (db.products.map Product.id).Nodup) (hnd : pids.Nodup) :
    (findProductsIn db pids).Perm (pids.filterMap (findProductById db)) := by
  have hprodNodup : db.products.Nodup := List.Nodup.of_map _ hids
  have h1 : (findProductsIn db pids).Nodup := hprodNodup.filter _
  have h2 : (pids.filterMap (findProductById db)).Nodup := by
    refine List.Nodup.filterMap ?_ hnd
    intro a a' b hb hb'
    have hba : b.id = a := by
      have h' : db.products.find? (fun q => q.id == a) = some b := Option.mem_def.mp hb
      simpa using List.find?_some h'
    have hba' : b.id = a' := by
      have h' : db.products.find? (fun q => q.id == a') = some b := Option.mem_def.mp hb'
      simpa using List.find?_some h'
    rw [← hba, ← hba']
  apply List.perm_of_nodup_nodup_toFinset_eq h1 h2
  ext p
  simp only [List.mem_toFinset, findProductsIn, List.mem_filter, decide_eq_true_eq,
    List.mem_filterMap]
  constructor
  · rintro ⟨hp, hpid⟩
    exact ⟨p.id, hpid, (findProductById_eq_some_iff db p.id p hids).mpr ⟨hp, rfl⟩⟩
  · rintro ⟨pid, hpid, hfind⟩
    obtain ⟨hp, hid⟩ := (findProductById_eq_some_iff db pid p hids).mp hfind
    exact ⟨hp, hid ▸ hpid⟩

/-- The reduce of createOrder succeeds on a list of non-falsy prices and
returns the accumulator plus their sum. -/
theorem computeTotal_ok :
    ∀ (ps : List Product) (acc : ℚ), (∀ p ∈ ps, priceFalsy p = false) →
      computeTotal ps acc = .ok (acc + (ps.filterMap Product.price).sum) := by
  intro ps
  induction ps with
  | nil =>
    intro acc h
    simp [computeTotal]
  | cons p ps ih =>
    intro acc h
    have hp := h p (List.mem_cons_self p ps)
    cases hq : p.price with
    | none =>
      rw [priceFalsy_none p hq] at hp
      exact absurd hp (by simp)
    | some q =>
      have hq0 : ¬(q = 0) := by
        rw [priceFalsy_some p q hq] at hp
        simpa using hp
      simp only [computeTotal, hq, hq0, if_false]
      rw [ih (acc + q) (fun x hx => h x (List.mem_cons_of_mem p hx))]
      congr 1
      simp only [List.filterMap_cons, hq, List.sum_cons]
      ring

/-- C1 (amended): when the user resolves, the requested product ids are
pairwise distinct, and every requested id resolves to a product with a
defined non-zero price, createOrder succeeds and the created order's
totalPrice is the exact arithmetic sum of the referenced products' prices
at call time.  (With a duplicated id the call instead fails — see the
counterexample.) -/
theorem claim_C1_createOrder_totalPrice (db : DB) (newId now userId : String)
    (productIds : List String)
    (hids : (db.products.map Product.id).Nodup)
    (hu : (findUserById db userId).isSome = true)
    (hnd : productIds.Nodup)
    (hres : productIds.all (resolvesWithGoodPrice db) = true) :
    ∃ po db2, createOrder db newId now userId productIds = (.ok po, db2) ∧
      po.totalPrice = (refPrices db productIds).sum := by
  obtain ⟨u, hu'⟩ := Option.isSome_iff_exists.mp hu
  have hres' : ∀ pid ∈ productIds, resolvesWithGoodPrice db pid = true := by
    intro pid hpid
    exact List.all_eq_true.mp hres pid hpid
  have hsome : ∀ pid ∈ productIds, (findProductById db pid).isSome = true := by
    intro pid hpid
    have hg := hres' pid hpid
    unfold resolvesWithGoodPrice at hg
    cases hf : findProductById db pid with
    | none => rw [hf] at hg; simp at hg
    | some p => simp
  have hperm := findProductsIn_perm db productIds hids hnd
  have hlen : (findProductsIn db productIds).length = productIds.length := by
    rw [hperm.length_eq]
    exact length_filterMap_of_isSome _ productIds hsome
  have hgood : ∀ p ∈ findProductsIn db productIds, priceFalsy p = false := by
    intro p hp
    have hmem := List.mem_filter.mp hp
    have hpid : p.id ∈ productIds := by simpa using hmem.2
    have hfind : findProductById db p.id = some p :=
      (findProductById_eq_some_iff db p.id p hids).mpr ⟨hmem.1, rfl⟩
    have hg := hres' p.id hpid
    unfold resolvesWithGoodPrice at hg
    rw [hfind] at hg
    simpa using hg
  have htot := computeTotal_ok (findProductsIn db productIds) 0 hgood
  have hsum : ((findProductsIn db productIds).filterMap Product.price).sum
      = (refPrices db productIds).sum := by
    rw [(hperm.filterMap Product.price).sum_eq, List.filterMap_filterMap]
    rfl
  have hmain : createOrder db newId now userId productIds =
      (.ok (populate
          { db with orders := db.orders ++
              [{ id := newId, user := userId, products := productIds,
                 status := "placed",
                 totalPrice := 0 + ((findProductsIn db productIds).filterMap Product.price).sum,
                 createdAt := now }] }
          { id := newId, user := userId, products := productIds,
            status := "placed",
            totalPrice := 0 + ((findProductsIn db productIds).filterMap Product.price).sum,
            createdAt := now }),
       { db with orders := db.orders ++
           [{ id := newId, user := userId, products := productIds,
              status := "placed",
              totalPrice := 0 + ((findProductsIn db productIds).filterMap Product.price).sum,
              createdAt := now }] }) := by
    simp [createOrder, hu', hlen, htot]
  refine ⟨_, _, hmain, ?_⟩
  show (0 : ℚ) + ((findProductsIn db productIds).filterMap Product.price).sum
      = (refPrices db productIds).sum
  rw [zero_add]
  exact hsum

/-- Witness for the amended C1: order over the distinct ids [P1, P2] of the
example database (priced 10 and 15.5) succeeds with the exact sum of the
referenced prices. -/
theorem claim_C1_witness :
    ∃ po db2, createOrder exDB "O2" "t0" "U1" ["P1", "P2"] = (.ok po, db2) ∧
      po.totalPrice = (refPrices exDB ["P1", "P2"]).sum :=
  claim_C1_createOrder_totalPrice exDB "O2" "t0" "U1" ["P1", "P2"]
    (by decide) (by rfl) (by decide) (by rfl)

/-- Counterexample to C1 as stated: with products priced 10.00 and 15.50
and productIds [P1, P1, P2], createOrder does not succeed with totalPrice
35.50 — it fails with the products-not-found error, because Mongo's `$in`
query returns the two distinct matching documents and the resolver compares
that count (2) with the requested count (3). -/
theorem claim_C1_counterexample :
    (createOrder exDB "O1" "t0" "U1" ["P1", "P1", "P2"]).1
      = Except.error Err.notFoundProducts := by
  rfl
